import Mathlib

/-!
Verification of the request-admission and identity layer of the Banking-vbac
backend.

Shallow embedding of the core admission/identity code shared by the backend
services:

* `src/backend/common/rate_limit.py` — per-key token-bucket rate limiting
  (`RateLimitMiddleware._consume`);
* `src/backend/common/auth.py` — JWKS cache with refresh-once-and-retry
  (`_JWKSCache`, `verify_jwt_token`) and the auth dependency (`require_auth`);
* `src/backend/common/settings.py` — configuration defaults (`CommonSettings`);
* `src/backend/api_gateway_local/app/main.py` — downstream error mapping
  (`_post_json` / `_get_json`).

Real-valued wall-clock times and the bucket's floating-point token count are
modelled as rationals (`ℚ`); machine floats and exact rationals agree on every
computation the theorems below exercise.
-/

namespace RateLimit

/-- Outcome of one `_consume` call: the Python code either returns normally
(the request is allowed through) or raises `HTTPException(429)` (rejected). -/
inductive ConsumeResult where
  | allowed
  | rejected
deriving Repr, DecidableEq

/-- Bucket state `_Bucket` from `rate_limit.py`: current token count and
last-refill timestamp. -/
structure Bucket where
  tokens : ℚ
  updated_at : ℚ
deriving Repr, DecidableEq

/-- Function `RateLimitMiddleware._consume` (rate_limit.py lines 46–60) acting
on the bucket stored for one key.  `none` models "no bucket exists for this
key yet": the code then creates `_Bucket(tokens=float(self.burst),
updated_at=now)`.  It then refills — `tokens := min(burst, tokens + elapsed *
rps)` with `elapsed := max 0 (now - updated_at)` — stamps `updated_at := now`,
and either raises 429 (when `tokens < 1`) or consumes one token. -/
def consume (rps : ℚ) (burst : ℤ) (now : ℚ) (b? : Option Bucket) :
    ConsumeResult × Bucket :=
  let b : Bucket := match b? with
    | none => { tokens := (burst : ℚ), updated_at := now }
    | some b => b
  let elapsed := max 0 (now - b.updated_at)
  let tokens := min (burst : ℚ) (b.tokens + elapsed * rps)
  if tokens < 1 then
    (.rejected, { tokens := tokens, updated_at := now })
  else
    (.allowed, { tokens := tokens - 1, updated_at := now })

/-- The middleware's bucket map `self._buckets`: `_consume` reads the bucket
stored under `key` (absent → a fresh one) and writes the updated bucket back
under the same key; no other key is touched. -/
def consumeMap (rps : ℚ) (burst : ℤ) (now : ℚ) (m : String → Option Bucket)
    (key : String) : ConsumeResult × (String → Option Bucket) :=
  let (res, b) := consume rps burst now (m key)
  (res, fun k => if k = key then some b else m k)

/-- Iterate `n` consume calls for the same key in immediate succession (all at
simulated time `now`), starting from bucket state `b?`; returns the number of
calls allowed through and the final bucket. -/
def runN (rps : ℚ) (burst : ℤ) (now : ℚ) : ℕ → Option Bucket → ℕ × Bucket
  | 0, b? =>
      (0, match b? with
          | none => { tokens := (burst : ℚ), updated_at := now }
          | some b => b)
  | n + 1, b? =>
      let (res, b) := consume rps burst now b?
      let (c, bfin) := runN rps burst now n (some b)
      ((if res = .allowed then 1 else 0) + c, bfin)

/-- The bucket invariant from spec §3: `0 ≤ tokens ≤ capacity` where the
capacity is `burst`. -/
def Inv (burst : ℤ) (b : Bucket) : Prop :=
  0 ≤ b.tokens ∧ b.tokens ≤ (burst : ℚ)

end RateLimit

namespace Auth

/-- One key object of a fetched JWKS document: its `kid` member (which may be
missing or the empty string) and the rest of the key material, abstracted as
an opaque string. -/
structure JWKEntry where
  kid : Option String
  material : String
deriving Repr, DecidableEq

/-- Insert into an association list keyed by `kid`, mirroring Python dict
assignment: a later entry with the same key overwrites the earlier one. -/
def insertKid (m : List (String × JWKEntry)) (s : String) (e : JWKEntry) :
    List (String × JWKEntry) :=
  match m with
  | [] => [(s, e)]
  | (s', e') :: rest =>
      if s' = s then (s, e) :: rest else (s', e') :: insertKid rest s e

/-- The dict comprehension of `_JWKSCache.refresh` (auth.py line 37):
`{k.get("kid"): k for k in keys if k.get("kid")}` — entries whose `kid` is
missing or empty (falsy) are dropped; later entries overwrite earlier ones. -/
def buildKeysByKid (keys : List JWKEntry) : List (String × JWKEntry) :=
  keys.foldl (fun m k =>
    match k.kid with
    | some s => if s = "" then m else insertKid m s k
    | none => m) []

/-- Cache state of `_JWKSCache` (auth.py lines 14–19): URL, TTL, fetch
timestamp, and the kid-indexed key map (`none` models Python `None`, the
state before any successful refresh). -/
structure JWKSCache where
  jwks_url : String
  ttl_seconds : ℚ
  fetched_at : ℚ
  keys_by_kid : Option (List (String × JWKEntry))
deriving Repr, DecidableEq

/-- Python truthiness of `self._keys_by_kid`: `None` and the empty dict are
both falsy. -/
def falsyKeys : Option (List (String × JWKEntry)) → Bool
  | none => true
  | some [] => true
  | some (_ :: _) => false

/-- Method `_JWKSCache._expired` (auth.py lines 21–22):
`not self._keys_by_kid or (time.time() - self._fetched_at) > self.ttl_seconds`. -/
def expired (c : JWKSCache) (now : ℚ) : Bool :=
  falsyKeys c.keys_by_kid || decide ((now - c.fetched_at) > c.ttl_seconds)

/-- Method `_JWKSCache.refresh` (auth.py lines 31–38) in the case the HTTP
fetch succeeds, with `remote` the key list of the fetched JWKS document: the
key map is replaced wholesale and the timestamp reset to `now`. -/
def refresh (c : JWKSCache) (remote : List JWKEntry) (now : ℚ) : JWKSCache :=
  { c with keys_by_kid := some (buildKeysByKid remote), fetched_at := now }

/-- The lookup at the end of `_JWKSCache.get_key` (auth.py lines 27–29):
`if not self._keys_by_kid: return None` then `self._keys_by_kid.get(kid)`. -/
def cacheLookup (c : JWKSCache) (kid : String) : Option JWKEntry :=
  match c.keys_by_kid with
  | none => none
  | some m => if m = [] then none else m.lookup kid

/-- Method `_JWKSCache.get_key` (auth.py lines 24–29): refresh when expired,
then look up.  Also returns the updated cache and the number of refreshes
performed (0 or 1). -/
def get_key (c : JWKSCache) (remote : List JWKEntry) (now : ℚ) (kid : String) :
    Option JWKEntry × JWKSCache × ℕ :=
  if expired c now then
    (cacheLookup (refresh c remote now) kid, refresh c remote now, 1)
  else (cacheLookup c kid, c, 0)

/-- The kid-resolution step of `verify_jwt_token` (auth.py lines 64–71): look
up via the cache; on a miss, refresh exactly once and retry (`# refresh once
and retry`).  The third component counts all refreshes performed. -/
def resolveKey (c : JWKSCache) (remote : List JWKEntry) (now : ℚ) (kid : String) :
    Option JWKEntry × JWKSCache × ℕ :=
  let r1 := get_key c remote now kid
  match r1.1 with
  | some j => (some j, r1.2.1, r1.2.2)
  | none =>
      let c2 := refresh r1.2.1 remote now
      let r2 := get_key c2 remote now kid
      (r2.1, r2.2.1, r1.2.2 + 1 + r2.2.2)

/-- Errors raised by the claim-validation step of token verification. -/
inductive ClaimError where
  | expired
  | issuerMismatch
  | audienceMismatch
deriving Repr, DecidableEq

/-- Decoded token claims relevant to validation. -/
structure TokenClaims where
  sub : Option String
  exp : Option ℤ
  iss : Option String
  aud : Option String
deriving Repr, DecidableEq

/-- Python truthiness of an optional-string setting: unset (`None`) and the
empty string are both falsy.  `verify_jwt_token` (auth.py line 74) computes
`options = {"verify_aud": bool(settings.audience)}` with exactly this test. -/
def truthy : Option String → Bool
  | none => false
  | some s => decide (s ≠ "")

/-- Modelled from the spec: the claim-validation step of the third-party
`jwt.decode(...)` call in `verify_jwt_token` (auth.py lines 76–89); the
library's claim-validation source is not part of this repository.  Per spec
§4.2/§7: `Expired` when the current time exceeds the credential's expiry plus
the fixed leeway (the source passes `leeway=10`); the issuer and audience
checks are enforced only when the corresponding expected value is configured
(non-empty) — the source enables the audience check as
`options = {"verify_aud": bool(settings.audience)}` and passes
`issuer=settings.issuer` and `audience=settings.audience` through. -/
def validateClaims (claims : TokenClaims) (now : ℤ)
    (audience issuer : Option String) : Except ClaimError TokenClaims :=
  let leeway : ℤ := 10
  if (match claims.exp with
      | some e => decide (now > e + leeway)
      | none => false) then .error .expired
  else if truthy issuer && decide (claims.iss ≠ issuer) then .error .issuerMismatch
  else if truthy audience && decide (claims.aud ≠ audience) then .error .audienceMismatch
  else .ok claims

/-- Configuration `CommonSettings` (settings.py lines 4–22) with its declared
field defaults. -/
structure CommonSettings where
  service_name : String := "backend-service"
  environment : String := "local"
  disable_auth : Bool := true
  jwks_url : Option String := none
  issuer : Option String := none
  audience : Option String := none
  rate_limit_enabled : Bool := true
  rate_limit_rps : ℚ := 30
  rate_limit_burst : ℤ := 60
  cors_allow_origins : String := "*"
deriving Repr, DecidableEq

/-- A `CommonSettings()` instance with no environment overrides: every field
takes its declared default. -/
def defaultSettings : CommonSettings := {}

/-- The fixed placeholder identity `{"sub": "local-user", "scope": "local"}`
returned in bypass mode (auth.py line 102), as an association list. -/
def fixedIdentity : List (String × String) :=
  [("sub", "local-user"), ("scope", "local")]

/-- An inbound request as `require_auth`'s dependency sees it: the value of
the `authorization` header, when present. -/
structure Request where
  authorization : Option String
deriving Repr, DecidableEq

/-- An `HTTPException(status_code, detail)` raised on the auth path. -/
structure AuthError where
  status : ℕ
  detail : String
deriving Repr, DecidableEq

/-- Token extraction `auth.split(" ", 1)[1].strip()` (auth.py line 107): the
part of the header value after the first space, stripped. -/
def tokenOf (auth : String) : String :=
  (String.intercalate " " (auth.splitOn " ").tail).trim

/-- The check `auth.lower().startswith("bearer ")` (auth.py line 105), at the
level of characters: the first seven characters, lowercased, must be exactly
`bearer` followed by a space. -/
def lowerStartsWithBearer (s : String) : Bool :=
  decide ((s.data.map Char.toLower).take 7 = ['b', 'e', 'a', 'r', 'e', 'r', ' '])

/-- Dependency `_dep` produced by `require_auth(settings)` (auth.py lines
100–108).  `verify` abstracts `verify_jwt_token(token, settings)`; the
dependency invokes it only on the non-bypass path.  The header read is
`request.headers.get("authorization") or ""`, so a missing header and an
empty header value coincide. -/
def requireAuthDep (settings : CommonSettings)
    (verify : String → Except AuthError (List (String × String)))
    (req : Request) : Except AuthError (List (String × String)) :=
  if settings.disable_auth then .ok fixedIdentity
  else
    let auth := req.authorization.getD ""
    if !(lowerStartsWithBearer auth) then
      .error ⟨401, "Missing Authorization Bearer token"⟩
    else verify (tokenOf auth)

end Auth

namespace Gateway

/-- Outcome of the downstream HTTP call made by `_post_json` / `_get_json`
(api_gateway_local/app/main.py lines 52–65): either an HTTP response with a
status code, body text and decoded JSON body, or a transport failure
(timeout / connection refused), which `httpx` raises as an exception. -/
inductive DownstreamOutcome (α : Type) where
  | response (status : ℕ) (text : String) (body : α)
  | transportError (detail : String)
deriving Repr, DecidableEq

/-- What the gateway endpoint produces from one downstream call: the decoded
body, an `HTTPException(status_code, detail)` raised by the helper, or an
uncaught exception that escapes the handler entirely (the framework then
returns its own generic 500 carrying no downstream detail). -/
inductive GatewayResult (α : Type) where
  | ok (body : α)
  | httpError (status : ℕ) (detail : String)
  | unhandledException (detail : String)
deriving Repr, DecidableEq

/-- Helpers `_post_json` / `_get_json` (main.py lines 52–65): any response
with `status_code >= 400` is re-raised as
`HTTPException(status_code=r.status_code, detail=r.text)`; otherwise the JSON
body is returned.  A transport error is not caught and escapes the handler. -/
def post_json {α : Type} (r : DownstreamOutcome α) : GatewayResult α :=
  match r with
  | .response st text body =>
      if st ≥ 400 then .httpError st text else .ok body
  | .transportError d => .unhandledException d

end Gateway

namespace RateLimit

lemma consume_none (rps : ℚ) (burst : ℤ) (now : ℚ) :
    consume rps burst now none =
      consume rps burst now (some ⟨(burst : ℚ), now⟩) := rfl

lemma consume_same (rps : ℚ) (burst : ℤ) (now t : ℚ) (h : t ≤ (burst : ℚ)) :
    consume rps burst now (some ⟨t, now⟩) =
      if t < 1 then (.rejected, ⟨t, now⟩) else (.allowed, ⟨t - 1, now⟩) := by
  simp [consume, min_eq_right h]

lemma consume_some (rps : ℚ) (burst : ℤ) (now : ℚ) (b : Bucket) :
    consume rps burst now (some b) =
      (if min (burst : ℚ) (b.tokens + max 0 (now - b.updated_at) * rps) < 1
       then (.rejected,
         ⟨min (burst : ℚ) (b.tokens + max 0 (now - b.updated_at) * rps), now⟩)
       else (.allowed,
         ⟨min (burst : ℚ) (b.tokens + max 0 (now - b.updated_at) * rps) - 1, now⟩)) := rfl

lemma runN_none_eq (rps : ℚ) (burst : ℤ) (now : ℚ) (n : ℕ) :
    runN rps burst now n none =
      runN rps burst now n (some ⟨(burst : ℚ), now⟩) := by
  cases n <;> rfl

lemma runN_some_state (rps : ℚ) (burst : ℤ) (now : ℚ) (n : ℕ) :
    ∀ j : ℤ, j ≤ burst → (n : ℤ) ≤ j →
      runN rps burst now n (some ⟨(j : ℚ), now⟩) = (n, ⟨((j - n : ℤ) : ℚ), now⟩) := by
  induction n with
  | zero => intro j hj hn; simp [runN]
  | succ n ih =>
      intro j hj hn
      have hj1 : (1 : ℤ) ≤ j := by omega
      have hcast : ¬ ((j : ℚ) < 1) := by exact_mod_cast not_lt.mpr hj1
      have hle : (j : ℚ) ≤ (burst : ℚ) := by exact_mod_cast hj
      have hstep := consume_same rps burst now (j : ℚ) hle
      rw [if_neg hcast] at hstep
      have hsub : ((j : ℚ) - 1) = ((j - 1 : ℤ) : ℚ) := by push_cast; ring
      have hrec := ih (j - 1) (by omega) (by omega)
      have hcast2 : ((j - 1 - (n : ℤ) : ℤ) : ℚ) = ((j - ((n + 1 : ℕ) : ℤ) : ℤ) : ℚ) := by
        push_cast; ring
      rw [hcast2] at hrec
      simp only [runN, hstep, hsub, hrec]
      norm_num
      omega

lemma runN_count (rps : ℚ) (burst : ℤ) (now : ℚ) (h1 : 1 ≤ burst) (n : ℕ) :
    ∀ j : ℤ, 0 ≤ j → j ≤ burst →
      (runN rps burst now n (some ⟨(j : ℚ), now⟩)).1 = min n j.toNat := by
  induction n with
  | zero => intro j _ _; simp [runN]
  | succ n ih =>
      intro j h0 hj
      have hle : (j : ℚ) ≤ (burst : ℚ) := by exact_mod_cast hj
      have hstep := consume_same rps burst now (j : ℚ) hle
      rcases eq_or_lt_of_le h0 with h | h
      · have hz : j = 0 := h.symm
        subst hz
        rw [if_pos (by norm_num)] at hstep
        have hrec := ih 0 le_rfl (by omega)
        simp only [runN, hstep, hrec]
        simp
      · have hj1 : (1 : ℤ) ≤ j := h
        have hcast : ¬ ((j : ℚ) < 1) := by exact_mod_cast not_lt.mpr hj1
        rw [if_neg hcast] at hstep
        have hsub : ((j : ℚ) - 1) = ((j - 1 : ℤ) : ℚ) := by push_cast; ring
        rw [hsub] at hstep
        have hrec := ih (j - 1) (by omega) (by omega)
        simp only [runN, hstep, hrec]
        norm_num
        omega

/-- Claim C2: for a key with no existing bucket, the first consume call is
allowed whenever `burst ≥ 1`; after `burst` consume calls for that key in
immediate succession (no simulated time passing, all calls allowed), the next
consume call for that key is rejected with the rate-limited error. -/
theorem fresh_key_burst_exhaustion
    (rps : ℚ) (burst : ℤ) (now : ℚ) (m : String → Option Bucket) (key : String)
    (hfresh : m key = none) (h1 : 1 ≤ burst) :
    (consumeMap rps burst now m key).1 = .allowed ∧
    (runN rps burst now burst.toNat none).1 = burst.toNat ∧
    (consume rps burst now (some (runN rps burst now burst.toNat none).2)).1
      = .rejected := by
  have h1q : (1 : ℚ) ≤ (burst : ℚ) := by exact_mod_cast h1
  have hnot : ¬ ((burst : ℚ) < 1) := not_lt.mpr h1q
  refine ⟨?_, ?_, ?_⟩
  · show (consume rps burst now (m key)).1 = .allowed
    rw [hfresh, consume_none, consume_same rps burst now (burst : ℚ) le_rfl,
      if_neg hnot]
  · rw [runN_none_eq]
    have := runN_count rps burst now h1 burst.toNat burst (by omega) le_rfl
    simpa using this
  · rw [runN_none_eq, runN_some_state rps burst now burst.toNat burst le_rfl
      (by omega)]
    have hz : ((burst - (burst.toNat : ℤ) : ℤ) : ℚ) = 0 := by
      have : burst - (burst.toNat : ℤ) = 0 := by omega
      rw [this]; norm_num
    rw [hz, consume_same rps burst now 0 (by linarith), if_pos (by norm_num)]

/-- Witness for C2 at `rps = 30`, `burst = 3`, a key with no bucket. -/
theorem fresh_key_burst_exhaustion_witness :
    ((fun _ : String => (none : Option Bucket)) "k" = none ∧ (1 : ℤ) ≤ 3) ∧
    ((consumeMap 30 3 0 (fun _ => none) "k").1 = .allowed ∧
      (runN 30 3 0 (3 : ℤ).toNat none).1 = (3 : ℤ).toNat ∧
      (consume 30 3 0 (some (runN 30 3 0 (3 : ℤ).toNat none).2)).1 = .rejected) :=
  ⟨⟨rfl, by norm_num⟩,
    fresh_key_burst_exhaustion 30 3 0 (fun _ => none) "k" rfl (by norm_num)⟩

/-- Claim C3: from any reachable bucket state (`0 ≤ tokens`) whose consume
call was just rejected, after exactly `1/rps` seconds of simulated time with
no other calls for that key, exactly one further consume call is allowed and
the one immediately after it is rejected again. -/
theorem one_token_after_refill_interval
    (rps : ℚ) (burst : ℤ) (now : ℚ) (b : Bucket)
    (hrps : 0 < rps) (h1 : 1 ≤ burst) (h0 : 0 ≤ b.tokens)
    (hrej : (consume rps burst now (some b)).1 = .rejected) :
    (consume rps burst (now + 1 / rps)
        (some (consume rps burst now (some b)).2)).1 = .allowed ∧
    (consume rps burst (now + 1 / rps)
        (some (consume rps burst (now + 1 / rps)
          (some (consume rps burst now (some b)).2)).2)).1 = .rejected := by
  have h1q : (1 : ℚ) ≤ (burst : ℚ) := by exact_mod_cast h1
  set t1 : ℚ := min (burst : ℚ) (b.tokens + max 0 (now - b.updated_at) * rps) with ht1
  have ht1nn : 0 ≤ t1 := le_min (by linarith)
    (add_nonneg h0 (mul_nonneg (le_max_left 0 _) hrps.le))
  have hlt : t1 < 1 := by
    by_contra hge
    rw [consume_some, ← ht1, if_neg hge] at hrej
    simp at hrej
  have hb1 : (consume rps burst now (some b)).2 = ⟨t1, now⟩ := by
    rw [consume_some, ← ht1, if_pos hlt]
  have hinv : (1 / rps) * rps = 1 := one_div_mul_cancel (ne_of_gt hrps)
  have helapsed : max 0 ((now + 1 / rps) - now) = 1 / rps := by
    rw [add_sub_cancel_left]
    exact max_eq_right (by positivity)
  set t2 : ℚ := min (burst : ℚ) (t1 + 1) with ht2
  have ht2ge : 1 ≤ t2 := le_min h1q (by linarith)
  have ht2le : t2 ≤ t1 + 1 := min_le_right _ _
  have hstep2 : consume rps burst (now + 1 / rps) (some ⟨t1, now⟩) =
      (.allowed, ⟨t2 - 1, now + 1 / rps⟩) := by
    rw [consume_some]
    show (if min (burst : ℚ) (t1 + max 0 ((now + 1 / rps) - now) * rps) < 1
          then _ else _) = _
    rw [helapsed, hinv, ← ht2, if_neg (not_lt.mpr ht2ge)]
  have hlast := consume_same rps burst (now + 1 / rps) (t2 - 1)
    (by have := min_le_left (burst : ℚ) (t1 + 1); linarith)
  rw [if_pos (by linarith)] at hlast
  refine ⟨?_, ?_⟩
  · rw [hb1, hstep2]
  · rw [hb1, hstep2]
    show (consume rps burst (now + 1 / rps) (some ⟨t2 - 1, now + 1 / rps⟩)).1 = _
    rw [hlast]

/-- Witness for C3 at `rps = 30`, `burst = 60`, rejected state `⟨0, 0⟩`. -/
theorem one_token_after_refill_interval_witness :
    ((0 : ℚ) < 30 ∧ (1 : ℤ) ≤ 60 ∧ (0 : ℚ) ≤ (Bucket.mk 0 0).tokens ∧
      (consume 30 60 0 (some ⟨0, 0⟩)).1 = .rejected) ∧
    ((consume 30 60 (0 + 1 / 30) (some (consume 30 60 0 (some ⟨0, 0⟩)).2)).1
        = .allowed ∧
      (consume 30 60 (0 + 1 / 30)
        (some (consume 30 60 (0 + 1 / 30)
          (some (consume 30 60 0 (some ⟨0, 0⟩)).2)).2)).1 = .rejected) :=
  ⟨⟨by norm_num, by norm_num, by norm_num, by simp [consume]⟩,
    one_token_after_refill_interval 30 60 0 ⟨0, 0⟩ (by norm_num) (by norm_num)
      (by norm_num) (by simp [consume])⟩

/-- Claim C4: with `rps ≥ 0`, `burst ≥ 1` and a clock that never runs
backwards relative to the bucket's stamp, a bucket satisfying
`0 ≤ tokens ≤ burst` before a consume call (and the freshly created bucket)
still satisfies it afterwards, whether the call is allowed or rejected. -/
theorem bucket_tokens_in_bounds
    (rps : ℚ) (burst : ℤ) (now : ℚ) (b? : Option Bucket)
    (hrps : 0 ≤ rps) (h1 : 1 ≤ burst)
    (hpre : ∀ b, b? = some b → Inv burst b ∧ b.updated_at ≤ now) :
    Inv burst { tokens := (burst : ℚ), updated_at := now } ∧
    Inv burst (consume rps burst now b?).2 := by
  have h1q : (1 : ℚ) ≤ (burst : ℚ) := by exact_mod_cast h1
  have key : ∀ b : Bucket, 0 ≤ b.tokens →
      Inv burst (consume rps burst now (some b)).2 := by
    intro b hb0
    rw [consume_some]
    have hnn : 0 ≤ b.tokens + max 0 (now - b.updated_at) * rps :=
      add_nonneg hb0 (mul_nonneg (le_max_left 0 _) hrps)
    have h0' : 0 ≤ min (burst : ℚ) (b.tokens + max 0 (now - b.updated_at) * rps) :=
      le_min (by linarith) hnn
    have hub : min (burst : ℚ) (b.tokens + max 0 (now - b.updated_at) * rps)
        ≤ (burst : ℚ) := min_le_left _ _
    by_cases hlt : min (burst : ℚ) (b.tokens + max 0 (now - b.updated_at) * rps) < 1
    · rw [if_pos hlt]; exact ⟨h0', hub⟩
    · rw [if_neg hlt]
      refine ⟨?_, ?_⟩
      · show (0 : ℚ) ≤ min (burst : ℚ)
          (b.tokens + max 0 (now - b.updated_at) * rps) - 1
        linarith [not_lt.mp hlt]
      · show min (burst : ℚ)
          (b.tokens + max 0 (now - b.updated_at) * rps) - 1 ≤ (burst : ℚ)
        linarith
  constructor
  · exact ⟨by linarith, le_rfl⟩
  · cases b? with
    | none =>
        rw [consume_none]
        exact key _ (by simpa using (by linarith : (0 : ℚ) ≤ (burst : ℚ)))
    | some b =>
        exact key b (hpre b rfl).1.1

/-- Witness for C4 at `rps = 30`, `burst = 60`, no pre-existing bucket. -/
theorem bucket_tokens_in_bounds_witness :
    ((0 : ℚ) ≤ 30 ∧ (1 : ℤ) ≤ 60 ∧
      (∀ b : Bucket, (none : Option Bucket) = some b → Inv 60 b ∧ b.updated_at ≤ 0)) ∧
    (Inv 60 { tokens := (60 : ℚ), updated_at := 0 } ∧
      Inv 60 (consume 30 60 0 none).2) :=
  ⟨⟨by norm_num, by norm_num, fun b h => nomatch h⟩,
    bucket_tokens_in_bounds 30 60 0 none (by norm_num) (by norm_num)
      (fun b h => nomatch h)⟩

/-- Claim C9: `n` consume calls for the same key at the same instant (no
refill time elapsing), executed in any serial order — `_consume` holds no
suspension point, so concurrent checks on the event loop serialize — let
exactly `min n burst` requests through; with `n = 100` and `burst = 10`,
exactly 10 are allowed and 90 rejected. -/
theorem serialized_admissions_exactly_burst
    (rps : ℚ) (burst : ℤ) (now : ℚ) (n : ℕ) (h1 : 1 ≤ burst) :
    (runN rps burst now n none).1 = min n burst.toNat := by
  rw [runN_none_eq]
  exact runN_count rps burst now h1 n burst (by omega) le_rfl

/-- Witness for C9 at the spec's example: 100 simultaneous requests,
`burst = 10`. -/
theorem serialized_admissions_exactly_burst_witness :
    (1 : ℤ) ≤ 10 ∧ (runN 30 10 0 100 none).1 = min 100 (10 : ℤ).toNat :=
  ⟨by norm_num, serialized_admissions_exactly_burst 30 10 0 100 (by norm_num)⟩

end RateLimit

namespace Auth

/-- Claim C5: for a credential whose `kid` is absent from the currently
cached, still-fresh key set but present in the key set a fresh fetch returns,
resolution succeeds after exactly one additional refresh-and-retry; moreover
the unknown-key path never loops: any resolution performs at most one retry
refresh on top of the at-most-one TTL refresh per `get_key` call, so at most
three refreshes in total. -/
theorem unknown_kid_one_refresh_retry
    (c : JWKSCache) (remote : List JWKEntry) (now : ℚ) (kid : String)
    (m : List (String × JWKEntry)) (j : JWKEntry)
    (hkeys : c.keys_by_kid = some m) (hm : m ≠ [])
    (hfresh : ¬ (now - c.fetched_at > c.ttl_seconds))
    (httl : 0 ≤ c.ttl_seconds)
    (hmiss : m.lookup kid = none)
    (hhit : (buildKeysByKid remote).lookup kid = some j) :
    resolveKey c remote now kid = (some j, refresh c remote now, 1) ∧
    ∀ (c' : JWKSCache) (kid' : String),
      (resolveKey c' remote now kid').2.2 ≤ 3 := by
  constructor
  · have hexp : expired c now = false := by
      cases m with
      | nil => exact absurd rfl hm
      | cons a t => simp [expired, falsyKeys, hkeys, hfresh]
    have hbuild : buildKeysByKid remote ≠ [] := by
      intro h
      rw [h] at hhit
      simp [List.lookup] at hhit
    have hkeys2 : (refresh c remote now).keys_by_kid
        = some (buildKeysByKid remote) := rfl
    have hexp2 : expired (refresh c remote now) now = false := by
      cases hb : buildKeysByKid remote with
      | nil => exact absurd hb hbuild
      | cons a t =>
          have hfa : (refresh c remote now).fetched_at = now := rfl
          have httl2 : (refresh c remote now).ttl_seconds = c.ttl_seconds := rfl
          simp [expired, falsyKeys, hkeys2, hb, hfa, httl2]
          linarith
    have hg1 : get_key c remote now kid = (none, c, 0) := by
      simp [get_key, hexp, cacheLookup, hkeys, hm, hmiss]
    have hlook2 : cacheLookup (refresh c remote now) kid = some j := by
      simp [cacheLookup, hkeys2, hbuild, hhit]
    have hg2 : get_key (refresh c remote now) remote now kid =
        (some j, refresh c remote now, 0) := by
      simp [get_key, hexp2, hlook2]
    simp [resolveKey, hg1, hg2]
  · intro c' kid'
    have hcount : ∀ (cc : JWKSCache) (kk : String),
        (get_key cc remote now kk).2.2 ≤ 1 := by
      intro cc kk
      by_cases h : expired cc now = true
      · simp [get_key, h]
      · simp [get_key, eq_false_of_ne_true h]
    simp only [resolveKey]
    split
    · exact le_trans (hcount c' kid') (by norm_num)
    · have h1 := hcount c' kid'
      have h2 := hcount (refresh (get_key c' remote now kid').2.1 remote now) kid'
      dsimp only
      omega

/-- Witness for C5: cached fresh key set `{a}` misses kid `b`, the remote
key set contains `b`; one retry refresh resolves it. -/
theorem unknown_kid_one_refresh_retry_witness :
    (List.lookup "b" [("a", JWKEntry.mk (some "a") "k1")] = none ∧
      List.lookup "b" (buildKeysByKid [JWKEntry.mk (some "b") "k2"]) =
        some (JWKEntry.mk (some "b") "k2") ∧
      ¬ ((0 : ℚ) - 0 > 300) ∧ (0 : ℚ) ≤ 300) ∧
    resolveKey (JWKSCache.mk "u" 300 0 (some [("a", JWKEntry.mk (some "a") "k1")]))
        [JWKEntry.mk (some "b") "k2"] 0 "b"
      = (some (JWKEntry.mk (some "b") "k2"),
          refresh (JWKSCache.mk "u" 300 0 (some [("a", JWKEntry.mk (some "a") "k1")]))
            [JWKEntry.mk (some "b") "k2"] 0, 1) :=
  ⟨⟨by simp [List.lookup], by simp [buildKeysByKid, insertKid, List.lookup],
      by norm_num, by norm_num⟩,
    (unknown_kid_one_refresh_retry
      (JWKSCache.mk "u" 300 0 (some [("a", JWKEntry.mk (some "a") "k1")]))
      [JWKEntry.mk (some "b") "k2"] 0 "b"
      [("a", JWKEntry.mk (some "a") "k1")] (JWKEntry.mk (some "b") "k2")
      rfl (by simp) (by norm_num) (by norm_num)
      (by simp [List.lookup])
      (by simp [buildKeysByKid, insertKid, List.lookup])).1⟩

/-- Counterexample to claim C6 as stated: its parenthetical demands that a
credential with `expiry = now + leeway + 1` be rejected with `Expired`, but
such a credential expires in the future — with `now = 0`, `leeway = 10`,
`exp = 11` validation succeeds, consistent with the claim's own main clause
(current time ≤ expiry + leeway). -/
theorem expiry_boundary_counterexample :
    validateClaims ⟨some "u", some 11, none, none⟩ 0 none none =
      .ok ⟨some "u", some 11, none, none⟩ := by
  simp [validateClaims, truthy]

/-- Claim C6 (amended): an otherwise-valid credential is accepted exactly
when the current time is at most its expiry plus the fixed 10-second leeway,
and rejected with `Expired` exactly when the current time exceeds expiry plus
leeway; the boundary instances are current time = expiry + leeway (accepted)
and current time = expiry + leeway + 1 (rejected). -/
theorem expiry_leeway_boundary
    (now e : ℤ) (sub : Option String) (iss aud : Option String) :
    (now ≤ e + 10 →
      validateClaims ⟨sub, some e, iss, aud⟩ now none none
        = .ok ⟨sub, some e, iss, aud⟩) ∧
    (now > e + 10 →
      validateClaims ⟨sub, some e, iss, aud⟩ now none none
        = .error .expired) := by
  constructor
  · intro h
    have hne : ¬ (now > e + 10) := by omega
    simp [validateClaims, truthy, hne]
  · intro h
    simp [validateClaims, truthy, h]

/-- Witness for C6 (amended) at both boundaries: `exp = 10`, checked at
`now = 20 = exp + leeway` (accepted) and `now = 21 = exp + leeway + 1`
(rejected). -/
theorem expiry_leeway_boundary_witness :
    ((20 : ℤ) ≤ 10 + 10 ∧
      validateClaims ⟨some "u", some 10, none, none⟩ 20 none none =
        .ok ⟨some "u", some 10, none, none⟩) ∧
    ((21 : ℤ) > 10 + 10 ∧
      validateClaims ⟨some "u", some 10, none, none⟩ 21 none none
        = .error .expired) :=
  ⟨⟨by norm_num, (expiry_leeway_boundary 20 10 (some "u") none none).1 (by norm_num)⟩,
   ⟨by norm_num, (expiry_leeway_boundary 21 10 (some "u") none none).2 (by norm_num)⟩⟩

/-- Claim C7: the audience check is enforced iff an expected audience is
configured (non-empty) and the issuer check iff an expected issuer is
configured (non-empty): with both unconfigured, validation of an unexpired
credential succeeds regardless of the credential's `iss`/`aud` values; with
one configured, a mismatching credential is rejected with the corresponding
error. -/
theorem checks_enforced_iff_configured
    (now e : ℤ) (sub issIn audIn audience issuer : Option String)
    (hexp : now ≤ e + 10) :
    ((truthy issuer = false ∨ issIn = issuer) →
     (truthy audience = false ∨ audIn = audience) →
      validateClaims ⟨sub, some e, issIn, audIn⟩ now audience issuer
        = .ok ⟨sub, some e, issIn, audIn⟩) ∧
    (truthy issuer = true → issIn ≠ issuer →
      validateClaims ⟨sub, some e, issIn, audIn⟩ now audience issuer
        = .error .issuerMismatch) ∧
    (truthy audience = true → (truthy issuer = false ∨ issIn = issuer) →
     audIn ≠ audience →
      validateClaims ⟨sub, some e, issIn, audIn⟩ now audience issuer
        = .error .audienceMismatch) := by
  have hne : ¬ (now > e + 10) := by omega
  refine ⟨?_, ?_, ?_⟩
  · rintro (hi | hi) (ha | ha) <;>
      simp [validateClaims, hne, hi, ha]
  · intro hi hne2
    simp [validateClaims, hne, hi, hne2]
  · rintro ha (hi | hi) hne2 <;>
      simp [validateClaims, hne, ha, hi, hne2]

/-- Witness for C7: with nothing configured any `iss`/`aud` pass; with an
issuer or audience configured, a mismatch is rejected with the matching
error. -/
theorem checks_enforced_iff_configured_witness :
    ((0 : ℤ) ≤ 0 + 10 ∧
      validateClaims ⟨some "u", some 0, some "anything", some "whatever"⟩ 0 none none
        = .ok ⟨some "u", some 0, some "anything", some "whatever"⟩) ∧
    ((0 : ℤ) ≤ 0 + 10 ∧
      validateClaims ⟨some "u", some 0, some "other", none⟩ 0 none (some "https://iss")
        = .error .issuerMismatch) ∧
    ((0 : ℤ) ≤ 0 + 10 ∧
      validateClaims ⟨some "u", some 0, none, some "other"⟩ 0 (some "aud") none
        = .error .audienceMismatch) :=
  ⟨⟨by norm_num,
     (checks_enforced_iff_configured 0 0 (some "u") (some "anything") (some "whatever")
        none none (by norm_num)).1 (Or.inl rfl) (Or.inl rfl)⟩,
   ⟨by norm_num,
     (checks_enforced_iff_configured 0 0 (some "u") (some "other") none
        none (some "https://iss") (by norm_num)).2.1 (by simp [truthy]) (by simp)⟩,
   ⟨by norm_num,
     (checks_enforced_iff_configured 0 0 (some "u") none (some "other")
        (some "aud") none (by norm_num)).2.2 (by simp [truthy]) (Or.inl (by simp [truthy]))
        (by simp)⟩⟩

/-- Claim C8: with the bypass flag enabled the dependency returns the fixed
placeholder identity for every request, whatever the credential; with it
disabled, a missing header or a header without the `bearer ` prefix yields a
401 error — never the placeholder identity — regardless of the verifier. -/
theorem bypass_iff_flag
    (settings : CommonSettings)
    (verify : String → Except AuthError (List (String × String)))
    (req : Request) :
    (settings.disable_auth = true →
      requireAuthDep settings verify req = .ok fixedIdentity) ∧
    (settings.disable_auth = false → req.authorization = none →
      requireAuthDep settings verify req
        = .error ⟨401, "Missing Authorization Bearer token"⟩) ∧
    (settings.disable_auth = false →
      ∀ a, req.authorization = some a → lowerStartsWithBearer a = false →
      requireAuthDep settings verify req
        = .error ⟨401, "Missing Authorization Bearer token"⟩) := by
  refine ⟨?_, ?_, ?_⟩
  · intro h
    simp [requireAuthDep, h]
  · intro h hnone
    simp [requireAuthDep, h, hnone, lowerStartsWithBearer]
  · intro h a ha hb
    simp [requireAuthDep, h, ha, hb]

/-- Witness for C8: bypass on with no header at all; bypass off with no
header; bypass off with a malformed (non-bearer) header. -/
theorem bypass_iff_flag_witness :
    (({ disable_auth := true } : CommonSettings).disable_auth = true ∧
      requireAuthDep { disable_auth := true }
          (fun _ => .error ⟨401, "JWT invalid"⟩) ⟨none⟩
        = .ok fixedIdentity) ∧
    (({ disable_auth := false } : CommonSettings).disable_auth = false ∧
      requireAuthDep { disable_auth := false }
          (fun _ => .error ⟨401, "JWT invalid"⟩) ⟨none⟩
        = .error ⟨401, "Missing Authorization Bearer token"⟩) ∧
    (requireAuthDep { disable_auth := false }
        (fun _ => .error ⟨401, "JWT invalid"⟩) ⟨some "Basic dXNlcg=="⟩
        = .error ⟨401, "Missing Authorization Bearer token"⟩) :=
  ⟨⟨rfl, (bypass_iff_flag _ _ _).1 rfl⟩,
   ⟨rfl, (bypass_iff_flag _ _ _).2.1 rfl rfl⟩,
   (bypass_iff_flag { disable_auth := false } _ ⟨some "Basic dXNlcg=="⟩).2.2 rfl
     "Basic dXNlcg==" rfl (by decide)⟩

/-- Claim C10: with the default configuration `disable_auth = true`
(settings.py line 11), every request — including one with no Authorization
header — receives the fixed identity, and the result does not depend on the
verifier, so token verification is never performed. -/
theorem default_settings_bypass
    (verify : String → Except AuthError (List (String × String)))
    (req : Request) :
    defaultSettings.disable_auth = true ∧
    requireAuthDep defaultSettings verify req = .ok fixedIdentity :=
  ⟨rfl, by simp [requireAuthDep, defaultSettings]⟩

end Auth

namespace Gateway

/-- Counterexample to claim C1 as stated: on a downstream 500 the gateway
does not mask the failure — `_post_json` re-raises
`HTTPException(status_code=500, detail=r.text)`, exposing the downstream
status and message verbatim to the client. -/
theorem server_error_passthrough_counterexample :
    post_json (DownstreamOutcome.response 500 "downstream internal detail" ()) =
      GatewayResult.httpError 500 "downstream internal detail" := by
  simp [post_json]

/-- Claim C1 (amended): every downstream HTTP status ≥ 400 — client- or
server-class alike — is propagated to the client with the same status and the
downstream body text verbatim; statuses < 400 return the decoded body; only a
transport failure (timeout / unreachable host) escapes as an uncaught
exception, surfaced by the framework as its generic masked 500. -/
theorem downstream_error_mapping
    (st : ℕ) (text : String) (body : Unit) (d : String) :
    (st ≥ 400 → post_json (DownstreamOutcome.response st text body)
        = GatewayResult.httpError st text) ∧
    (st < 400 → post_json (DownstreamOutcome.response st text body)
        = GatewayResult.ok body) ∧
    post_json (DownstreamOutcome.transportError d)
      = (GatewayResult.unhandledException d : GatewayResult Unit) := by
  refine ⟨?_, ?_, rfl⟩
  · intro h
    simp [post_json, h]
  · intro h
    simp [post_json, Nat.not_le.mpr h]

/-- Witness for C1 (amended) at a 404, a 500 and a 200. -/
theorem downstream_error_mapping_witness :
    (404 ≥ 400 ∧ post_json (DownstreamOutcome.response 404 "Not Found" ())
        = GatewayResult.httpError 404 "Not Found") ∧
    (500 ≥ 400 ∧ post_json (DownstreamOutcome.response 500 "Internal detail" ())
        = GatewayResult.httpError 500 "Internal detail") ∧
    (200 < 400 ∧ post_json (DownstreamOutcome.response 200 "OK" ())
        = GatewayResult.ok ()) :=
  ⟨⟨by norm_num, (downstream_error_mapping 404 "Not Found" () "t").1 (by norm_num)⟩,
   ⟨by norm_num, (downstream_error_mapping 500 "Internal detail" () "t").1 (by norm_num)⟩,
   ⟨by norm_num, (downstream_error_mapping 200 "OK" () "t").2.1 (by norm_num)⟩⟩

end Gateway
